import Mathlib

/-!
Shallow embedding of `src/ioc_rix_sp1k1_calc/ioc_rix_sp1k1_calc.py`.

The program is a soft IOC with four input slots (grating pitch, mirror
pitch, exit-slit gap, grating horizontal) fed by subscription callbacks,
and four published outputs (energy, cff, bandwidth, grating identity).
Each callback applies a deadband filter and, on acceptance, stores the
sample and runs the recompute steps of the outputs depending on that slot.

Modelling choices:
* Floating point samples and timestamps are modelled as rationals.
* The dynamically loaded `rix_utilities` module is an external collaborator;
  it is modelled as a structure of functions.  Each function may raise,
  which is modelled with `Except String`.
* Every handler invocation returns the new state, the trace of external
  effects it performed (calls to the calculation module and PV writes),
  and the exception that escaped the handler, if any.
-/

/-- `DEADBAND = 0.05`: ignore motor moves smaller than this number. -/
def DEADBAND : ℚ := 1 / 20

/-- `np.isclose(a, b, rtol=0, atol=DEADBAND)` on finite scalars:
`|a - b| <= atol + rtol * |b|`, which with `rtol = 0` is `|a - b| <= DEADBAND`. -/
def npIsClose (a b : ℚ) : Bool := |a - b| ≤ DEADBAND

/-- The guard shared by all four callbacks:
`self.<slot>_value is None or not np.isclose(self.<slot>_value, response.data, rtol=0, atol=DEADBAND)`. -/
def acceptSample (current : Option ℚ) (data : ℚ) : Bool :=
  match current with
  | none => true
  | some old => !npIsClose old data

/-- Interface of the dynamically loaded `rix_utilities` calculation module
(an external collaborator; its formulas are not in this repository).
Each function either returns a value or raises. -/
structure RixUtilities where
  calc_E : ℚ → ℚ → Except String (ℚ × ℚ)
  calc_BW : ℚ → ℚ → ℚ → Except String ℚ
  get_grating : Unit → Except String String

/-- Observable external effects of a handler invocation: calls into the
calculation module, and writes to the published PVs (value, timestamp). -/
inductive Event where
  | callCalcE (g_pi m_pi : ℚ)
  | callCalcBW (exit_gap g_pi m_pi : ℚ)
  | callGetGrating
  | writeEnergy (v ts : ℚ)
  | writeCff (v ts : ℚ)
  | writeBandwidth (v ts : ℚ)
  | writeGrating (s : String) (ts : ℚ)
  deriving DecidableEq

/-- The mutable state of `Ioc_rix_sp1k1_calc`: the four input slots
(each `None` until the first accepted sample) and the four published
outputs with their last-write timestamps. -/
structure IocState where
  g_pi_value : Option ℚ
  m_pi_value : Option ℚ
  exit_gap_value : Option ℚ
  g_h_value : Option ℚ
  energy : ℚ
  energy_ts : Option ℚ
  cff : ℚ
  cff_ts : Option ℚ
  bandwidth : ℚ
  bandwidth_ts : Option ℚ
  grating : String
  grating_ts : Option ℚ
  deriving DecidableEq

/-- State right after `__init__`: all slots `None`, outputs at their
declared initial values (`value=0.0` for the numeric PVs, `value=""` for
the grating PV), nothing written yet. -/
def initState : IocState where
  g_pi_value := none
  m_pi_value := none
  exit_gap_value := none
  g_h_value := none
  energy := 0
  energy_ts := none
  cff := 0
  cff_ts := none
  bandwidth := 0
  bandwidth_ts := none
  grating := ""
  grating_ts := none

/-- Result of one handler invocation: final state, trace of effects, and
the exception that escaped, if any. -/
structure HResult where
  state : IocState
  events : List Event
  err : Option String
  deriving DecidableEq

/-- Run a second step after a first result, Python style: if the first
step raised, the exception propagates and the second step never runs. -/
def andThen (r : HResult) (k : IocState → HResult) : HResult :=
  match r.err with
  | some e => ⟨r.state, r.events, some e⟩
  | none =>
    let r2 := k r.state
    ⟨r2.state, r.events ++ r2.events, r2.err⟩

/-- `calculate_energy`: returns `(0, 0)` without calling out when either
pitch slot is `None`, else runs `rix_utilities.calc_E(g_pi, m_pi)`. -/
def calculate_energy (u : RixUtilities) (s : IocState) :
    Except String (ℚ × ℚ) × List Event :=
  match s.g_pi_value, s.m_pi_value with
  | some g, some m => (u.calc_E g m, [Event.callCalcE g m])
  | _, _ => (Except.ok (0, 0), [])

/-- `_update_energy_calc`: compute, then write the energy and cff PVs
with the propagated timestamp. -/
def update_energy_calc (u : RixUtilities) (s : IocState) (timestamp : ℚ) : HResult :=
  match calculate_energy u s with
  | (Except.error e, evs) => ⟨s, evs, some e⟩
  | (Except.ok (new_energy, new_cff), evs) =>
    ⟨{ s with energy := new_energy, energy_ts := some timestamp,
              cff := new_cff, cff_ts := some timestamp },
     evs ++ [Event.writeEnergy new_energy timestamp,
             Event.writeCff new_cff timestamp],
     none⟩

/-- `calculate_bandwidth`: returns `0` without calling out when any of the
three slots is `None`, else runs
`rix_utilities.calc_BW(exit_gap, g_pi, m_pi)`. -/
def calculate_bandwidth (u : RixUtilities) (s : IocState) :
    Except String ℚ × List Event :=
  match s.g_pi_value, s.m_pi_value, s.exit_gap_value with
  | some g, some m, some eg => (u.calc_BW eg g m, [Event.callCalcBW eg g m])
  | _, _, _ => (Except.ok 0, [])

/-- `_update_bandwidth_calc`: compute, then write the bandwidth PV with
the propagated timestamp. -/
def update_bandwidth_calc (u : RixUtilities) (s : IocState) (timestamp : ℚ) : HResult :=
  match calculate_bandwidth u s with
  | (Except.error e, evs) => ⟨s, evs, some e⟩
  | (Except.ok new_bandwidth, evs) =>
    ⟨{ s with bandwidth := new_bandwidth, bandwidth_ts := some timestamp },
     evs ++ [Event.writeBandwidth new_bandwidth timestamp],
     none⟩

/-- `calculate_grating`: returns the empty string without calling out when
the grating horizontal slot is `None`, else runs
`rix_utilities.get_grating()` with no arguments. -/
def calculate_grating (u : RixUtilities) (s : IocState) :
    Except String String × List Event :=
  match s.g_h_value with
  | some _ => (u.get_grating (), [Event.callGetGrating])
  | none => (Except.ok (""), [])

/-- `_update_grating_calc`: compute, then write the grating PV with the
propagated timestamp. -/
def update_grating_calc (u : RixUtilities) (s : IocState) (timestamp : ℚ) : HResult :=
  match calculate_grating u s with
  | (Except.error e, evs) => ⟨s, evs, some e⟩
  | (Except.ok new_grating, evs) =>
    ⟨{ s with grating := new_grating, grating_ts := some timestamp },
     evs ++ [Event.writeGrating new_grating timestamp],
     none⟩

/-- `_g_pi_callback`: deadband gate, then store the sample and update the
energy and bandwidth calculations. -/
def g_pi_callback (u : RixUtilities) (s : IocState) (data timestamp : ℚ) : HResult :=
  if acceptSample s.g_pi_value data then
    andThen (update_energy_calc u { s with g_pi_value := some data } timestamp)
      (fun s1 => update_bandwidth_calc u s1 timestamp)
  else ⟨s, [], none⟩

/-- `_m_pi_callback`: deadband gate, then store the sample and update the
energy and bandwidth calculations. -/
def m_pi_callback (u : RixUtilities) (s : IocState) (data timestamp : ℚ) : HResult :=
  if acceptSample s.m_pi_value data then
    andThen (update_energy_calc u { s with m_pi_value := some data } timestamp)
      (fun s1 => update_bandwidth_calc u s1 timestamp)
  else ⟨s, [], none⟩

/-- `_exit_gap_callback`: deadband gate, then store the sample and update
the bandwidth calculation. -/
def exit_gap_callback (u : RixUtilities) (s : IocState) (data timestamp : ℚ) : HResult :=
  if acceptSample s.exit_gap_value data then
    update_bandwidth_calc u { s with exit_gap_value := some data } timestamp
  else ⟨s, [], none⟩

/-- `_g_h_callback`: deadband gate, then store the sample and update the
grating calculation. -/
def g_h_callback (u : RixUtilities) (s : IocState) (data timestamp : ℚ) : HResult :=
  if acceptSample s.g_h_value data then
    update_grating_calc u { s with g_h_value := some data } timestamp
  else ⟨s, [], none⟩

/-- Python value universe for modelling attribute access on the `rix.db`
stand-in: either the `None` singleton or some other object. -/
inductive PyValue where
  | pyNone
  | other (tag : String)
  deriving DecidableEq

/-- Outcome of a Python attribute lookup: a value, or an AttributeError. -/
inductive AttrResult where
  | value (v : PyValue)
  | attributeError (name : String)
  deriving DecidableEq

/-- `NoneRixDB.__getattr__`: every attribute access on the `rix.db`
replacement stub returns `None` (never raises). -/
def NoneRixDB_getattr (name : String) : AttrResult :=
  AttrResult.value PyValue.pyNone

/-! ### Basic equations for the recompute steps -/

lemma calculate_energy_missing (u : RixUtilities) (s : IocState)
    (h : s.g_pi_value = none ∨ s.m_pi_value = none) :
    calculate_energy u s = (Except.ok (0, 0), []) := by
  unfold calculate_energy
  rcases h with h | h
  · rw [h]
  · rw [h]
    cases s.g_pi_value <;> rfl

lemma calculate_energy_some (u : RixUtilities) (s : IocState) (g m : ℚ)
    (hg : s.g_pi_value = some g) (hm : s.m_pi_value = some m) :
    calculate_energy u s = (u.calc_E g m, [Event.callCalcE g m]) := by
  unfold calculate_energy
  rw [hg, hm]

lemma update_energy_calc_missing (u : RixUtilities) (s : IocState) (ts : ℚ)
    (h : s.g_pi_value = none ∨ s.m_pi_value = none) :
    update_energy_calc u s ts =
      ⟨{ s with energy := 0, energy_ts := some ts, cff := 0, cff_ts := some ts },
       [Event.writeEnergy 0 ts, Event.writeCff 0 ts], none⟩ := by
  unfold update_energy_calc
  rw [calculate_energy_missing u s h]
  rfl

lemma calculate_bandwidth_missing (u : RixUtilities) (s : IocState)
    (h : s.g_pi_value = none ∨ s.m_pi_value = none ∨ s.exit_gap_value = none) :
    calculate_bandwidth u s = (Except.ok 0, []) := by
  unfold calculate_bandwidth
  rcases h with h | h | h
  · rw [h]
  · rw [h]
    cases s.g_pi_value <;> rfl
  · rw [h]
    cases s.g_pi_value <;> cases s.m_pi_value <;> rfl

lemma calculate_bandwidth_some (u : RixUtilities) (s : IocState) (g m eg : ℚ)
    (hg : s.g_pi_value = some g) (hm : s.m_pi_value = some m)
    (he : s.exit_gap_value = some eg) :
    calculate_bandwidth u s = (u.calc_BW eg g m, [Event.callCalcBW eg g m]) := by
  unfold calculate_bandwidth
  rw [hg, hm, he]

lemma update_bandwidth_calc_missing (u : RixUtilities) (s : IocState) (ts : ℚ)
    (h : s.g_pi_value = none ∨ s.m_pi_value = none ∨ s.exit_gap_value = none) :
    update_bandwidth_calc u s ts =
      ⟨{ s with bandwidth := 0, bandwidth_ts := some ts },
       [Event.writeBandwidth 0 ts], none⟩ := by
  unfold update_bandwidth_calc
  rw [calculate_bandwidth_missing u s h]
  rfl

lemma calculate_grating_missing (u : RixUtilities) (s : IocState)
    (h : s.g_h_value = none) :
    calculate_grating u s = (Except.ok (""), []) := by
  unfold calculate_grating
  rw [h]

lemma calculate_grating_some (u : RixUtilities) (s : IocState) (x : ℚ)
    (h : s.g_h_value = some x) :
    calculate_grating u s = (u.get_grating (), [Event.callGetGrating]) := by
  unfold calculate_grating
  rw [h]

/-! ### The effect traces of recompute steps are never empty -/

lemma update_energy_calc_events_ne_nil (u : RixUtilities) (s : IocState) (ts : ℚ) :
    (update_energy_calc u s ts).events ≠ [] := by
  unfold update_energy_calc
  cases hg : s.g_pi_value with
  | none =>
    rw [calculate_energy_missing u s (Or.inl hg)]
    simp
  | some g =>
    cases hm : s.m_pi_value with
    | none =>
      rw [calculate_energy_missing u s (Or.inr hm)]
      simp
    | some m =>
      rw [calculate_energy_some u s g m hg hm]
      cases u.calc_E g m with
      | error e => simp
      | ok p =>
        cases p with
        | mk en cf => simp

lemma update_bandwidth_calc_events_ne_nil (u : RixUtilities) (s : IocState) (ts : ℚ) :
    (update_bandwidth_calc u s ts).events ≠ [] := by
  unfold update_bandwidth_calc
  cases hg : s.g_pi_value with
  | none =>
    rw [calculate_bandwidth_missing u s (Or.inl hg)]
    simp
  | some g =>
    cases hm : s.m_pi_value with
    | none =>
      rw [calculate_bandwidth_missing u s (Or.inr (Or.inl hm))]
      simp
    | some m =>
      cases he : s.exit_gap_value with
      | none =>
        rw [calculate_bandwidth_missing u s (Or.inr (Or.inr he))]
        simp
      | some eg =>
        rw [calculate_bandwidth_some u s g m eg hg hm he]
        cases u.calc_BW eg g m with
        | error e => simp
        | ok b => simp

lemma update_grating_calc_events_ne_nil (u : RixUtilities) (s : IocState) (ts : ℚ) :
    (update_grating_calc u s ts).events ≠ [] := by
  unfold update_grating_calc
  cases hg : s.g_h_value with
  | none =>
    rw [calculate_grating_missing u s hg]
    simp
  | some x =>
    rw [calculate_grating_some u s x hg]
    cases u.get_grating () with
    | error e => simp
    | ok gname => simp

lemma andThen_events_ne_nil (r : HResult) (k : IocState → HResult)
    (h : r.events ≠ []) : (andThen r k).events ≠ [] := by
  unfold andThen
  cases r.err with
  | none => simpa using fun hc _ => h hc
  | some e => simpa using h

/-! ### Equations for the recompute steps when all dependencies are set -/

lemma update_energy_calc_ok (u : RixUtilities) (s : IocState) (ts g m e c : ℚ)
    (hg : s.g_pi_value = some g) (hm : s.m_pi_value = some m)
    (hc : u.calc_E g m = Except.ok (e, c)) :
    update_energy_calc u s ts =
      ⟨{ s with energy := e, energy_ts := some ts, cff := c, cff_ts := some ts },
       [Event.callCalcE g m, Event.writeEnergy e ts, Event.writeCff c ts],
       none⟩ := by
  unfold update_energy_calc
  rw [calculate_energy_some u s g m hg hm, hc]
  rfl

lemma update_energy_calc_raise (u : RixUtilities) (s : IocState) (ts g m : ℚ)
    (er : String)
    (hg : s.g_pi_value = some g) (hm : s.m_pi_value = some m)
    (hc : u.calc_E g m = Except.error er) :
    update_energy_calc u s ts = ⟨s, [Event.callCalcE g m], some er⟩ := by
  unfold update_energy_calc
  rw [calculate_energy_some u s g m hg hm, hc]

lemma update_bandwidth_calc_ok (u : RixUtilities) (s : IocState) (ts g m eg b : ℚ)
    (hg : s.g_pi_value = some g) (hm : s.m_pi_value = some m)
    (he : s.exit_gap_value = some eg)
    (hc : u.calc_BW eg g m = Except.ok b) :
    update_bandwidth_calc u s ts =
      ⟨{ s with bandwidth := b, bandwidth_ts := some ts },
       [Event.callCalcBW eg g m, Event.writeBandwidth b ts],
       none⟩ := by
  unfold update_bandwidth_calc
  rw [calculate_bandwidth_some u s g m eg hg hm he, hc]
  rfl

lemma update_bandwidth_calc_raise (u : RixUtilities) (s : IocState) (ts g m eg : ℚ)
    (er : String)
    (hg : s.g_pi_value = some g) (hm : s.m_pi_value = some m)
    (he : s.exit_gap_value = some eg)
    (hc : u.calc_BW eg g m = Except.error er) :
    update_bandwidth_calc u s ts = ⟨s, [Event.callCalcBW eg g m], some er⟩ := by
  unfold update_bandwidth_calc
  rw [calculate_bandwidth_some u s g m eg hg hm he, hc]

lemma update_grating_calc_missing (u : RixUtilities) (s : IocState) (ts : ℚ)
    (h : s.g_h_value = none) :
    update_grating_calc u s ts =
      ⟨{ s with grating := (""), grating_ts := some ts },
       [Event.writeGrating ("") ts], none⟩ := by
  unfold update_grating_calc
  rw [calculate_grating_missing u s h]
  rfl

lemma update_grating_calc_ok (u : RixUtilities) (s : IocState) (ts x : ℚ)
    (gname : String)
    (hx : s.g_h_value = some x) (hc : u.get_grating () = Except.ok gname) :
    update_grating_calc u s ts =
      ⟨{ s with grating := gname, grating_ts := some ts },
       [Event.callGetGrating, Event.writeGrating gname ts], none⟩ := by
  unfold update_grating_calc
  rw [calculate_grating_some u s x hx, hc]
  rfl

lemma update_grating_calc_raise (u : RixUtilities) (s : IocState) (ts x : ℚ)
    (er : String)
    (hx : s.g_h_value = some x) (hc : u.get_grating () = Except.error er) :
    update_grating_calc u s ts = ⟨s, [Event.callGetGrating], some er⟩ := by
  unfold update_grating_calc
  rw [calculate_grating_some u s x hx, hc]

/-! ### The deadband gate -/

lemma acceptSample_none_eq (x : ℚ) : acceptSample none x = true := rfl

lemma acceptSample_some_false_iff (v x : ℚ) :
    acceptSample (some v) x = false ↔ |v - x| ≤ DEADBAND := by
  simp [acceptSample, npIsClose]

lemma g_pi_callback_accept (u : RixUtilities) (s : IocState) (x ts : ℚ)
    (h : acceptSample s.g_pi_value x = true) :
    g_pi_callback u s x ts =
      andThen (update_energy_calc u { s with g_pi_value := some x } ts)
        (fun t => update_bandwidth_calc u t ts) := by
  unfold g_pi_callback
  rw [h]
  rfl

lemma m_pi_callback_accept (u : RixUtilities) (s : IocState) (x ts : ℚ)
    (h : acceptSample s.m_pi_value x = true) :
    m_pi_callback u s x ts =
      andThen (update_energy_calc u { s with m_pi_value := some x } ts)
        (fun t => update_bandwidth_calc u t ts) := by
  unfold m_pi_callback
  rw [h]
  rfl

lemma exit_gap_callback_accept (u : RixUtilities) (s : IocState) (x ts : ℚ)
    (h : acceptSample s.exit_gap_value x = true) :
    exit_gap_callback u s x ts =
      update_bandwidth_calc u { s with exit_gap_value := some x } ts := by
  unfold exit_gap_callback
  rw [h]
  rfl

lemma g_h_callback_accept (u : RixUtilities) (s : IocState) (x ts : ℚ)
    (h : acceptSample s.g_h_value x = true) :
    g_h_callback u s x ts =
      update_grating_calc u { s with g_h_value := some x } ts := by
  unfold g_h_callback
  rw [h]
  rfl

lemma g_pi_callback_reject (u : RixUtilities) (s : IocState) (x ts : ℚ)
    (h : acceptSample s.g_pi_value x = false) :
    g_pi_callback u s x ts = ⟨s, [], none⟩ := by
  unfold g_pi_callback
  rw [h]
  rfl

lemma m_pi_callback_reject (u : RixUtilities) (s : IocState) (x ts : ℚ)
    (h : acceptSample s.m_pi_value x = false) :
    m_pi_callback u s x ts = ⟨s, [], none⟩ := by
  unfold m_pi_callback
  rw [h]
  rfl

lemma exit_gap_callback_reject (u : RixUtilities) (s : IocState) (x ts : ℚ)
    (h : acceptSample s.exit_gap_value x = false) :
    exit_gap_callback u s x ts = ⟨s, [], none⟩ := by
  unfold exit_gap_callback
  rw [h]
  rfl

lemma g_h_callback_reject (u : RixUtilities) (s : IocState) (x ts : ℚ)
    (h : acceptSample s.g_h_value x = false) :
    g_h_callback u s x ts = ⟨s, [], none⟩ := by
  unfold g_h_callback
  rw [h]
  rfl

lemma g_pi_callback_noop_iff (u : RixUtilities) (s : IocState) (x ts : ℚ) :
    g_pi_callback u s x ts = ⟨s, [], none⟩ ↔ acceptSample s.g_pi_value x = false := by
  cases h : acceptSample s.g_pi_value x
  · simp [g_pi_callback_reject u s x ts h]
  · rw [g_pi_callback_accept u s x ts h]
    constructor
    · intro hc
      have he : (andThen (update_energy_calc u { s with g_pi_value := some x } ts)
          (fun t => update_bandwidth_calc u t ts)).events = ([] : List Event) := by
        rw [hc]
      exact absurd he
        (andThen_events_ne_nil _ _ (update_energy_calc_events_ne_nil _ _ _))
    · intro hc
      cases hc

lemma m_pi_callback_noop_iff (u : RixUtilities) (s : IocState) (x ts : ℚ) :
    m_pi_callback u s x ts = ⟨s, [], none⟩ ↔ acceptSample s.m_pi_value x = false := by
  cases h : acceptSample s.m_pi_value x
  · simp [m_pi_callback_reject u s x ts h]
  · rw [m_pi_callback_accept u s x ts h]
    constructor
    · intro hc
      have he : (andThen (update_energy_calc u { s with m_pi_value := some x } ts)
          (fun t => update_bandwidth_calc u t ts)).events = ([] : List Event) := by
        rw [hc]
      exact absurd he
        (andThen_events_ne_nil _ _ (update_energy_calc_events_ne_nil _ _ _))
    · intro hc
      cases hc

lemma exit_gap_callback_noop_iff (u : RixUtilities) (s : IocState) (x ts : ℚ) :
    exit_gap_callback u s x ts = ⟨s, [], none⟩ ↔
      acceptSample s.exit_gap_value x = false := by
  cases h : acceptSample s.exit_gap_value x
  · simp [exit_gap_callback_reject u s x ts h]
  · rw [exit_gap_callback_accept u s x ts h]
    constructor
    · intro hc
      have he : (update_bandwidth_calc u { s with exit_gap_value := some x } ts).events
          = ([] : List Event) := by
        rw [hc]
      exact absurd he (update_bandwidth_calc_events_ne_nil _ _ _)
    · intro hc
      cases hc

lemma g_h_callback_noop_iff (u : RixUtilities) (s : IocState) (x ts : ℚ) :
    g_h_callback u s x ts = ⟨s, [], none⟩ ↔ acceptSample s.g_h_value x = false := by
  cases h : acceptSample s.g_h_value x
  · simp [g_h_callback_reject u s x ts h]
  · rw [g_h_callback_accept u s x ts h]
    constructor
    · intro hc
      have he : (update_grating_calc u { s with g_h_value := some x } ts).events
          = ([] : List Event) := by
        rw [hc]
      exact absurd he (update_grating_calc_events_ne_nil _ _ _)
    · intro hc
      cases hc

/-! ### Concrete instances used by the witnesses -/

/-- A sample calculation module whose functions never raise and merely
return their arguments, so that witness instances reduce by `rfl`. -/
def uTest : RixUtilities where
  calc_E := fun g m => Except.ok (g, m)
  calc_BW := fun eg _ _ => Except.ok eg
  get_grating := fun _ => Except.ok ("G1")

/-- A calculation module whose bandwidth calculation always raises. -/
def uRaises : RixUtilities where
  calc_E := fun g m => Except.ok (g, m)
  calc_BW := fun _ _ _ => Except.error ("boom")
  get_grating := fun _ => Except.ok ("G1")

/-- A state with the grating pitch slot holding 10. -/
def sTen : IocState := { initState with g_pi_value := some 10 }

/-- A state with all three numeric dependencies of the bandwidth set. -/
def sReady : IocState :=
  { initState with g_pi_value := some 1, m_pi_value := some 2,
                   exit_gap_value := some 3 }

/-- C1: each input slot callback (grating pitch, mirror pitch, exit gap,
grating horizontal) stores the new sample and invokes the recompute steps
of exactly its dependent outputs if and only if the stored value is unset
or differs from the sample by strictly more than the absolute deadband
0.05; for any sample within the closed band, the callback performs no
state mutation, no recompute and no publish. -/
theorem C1_deadband_gate :
    (∀ x : ℚ, acceptSample none x = true) ∧
    (∀ v x : ℚ, (acceptSample (some v) x = false ↔ |v - x| ≤ DEADBAND)) ∧
    (∀ (u : RixUtilities) (s : IocState) (x ts : ℚ),
      (g_pi_callback u s x ts = ⟨s, [], none⟩ ↔
        acceptSample s.g_pi_value x = false) ∧
      (acceptSample s.g_pi_value x = true →
        g_pi_callback u s x ts =
          andThen (update_energy_calc u { s with g_pi_value := some x } ts)
            (fun t => update_bandwidth_calc u t ts))) ∧
    (∀ (u : RixUtilities) (s : IocState) (x ts : ℚ),
      (m_pi_callback u s x ts = ⟨s, [], none⟩ ↔
        acceptSample s.m_pi_value x = false) ∧
      (acceptSample s.m_pi_value x = true →
        m_pi_callback u s x ts =
          andThen (update_energy_calc u { s with m_pi_value := some x } ts)
            (fun t => update_bandwidth_calc u t ts))) ∧
    (∀ (u : RixUtilities) (s : IocState) (x ts : ℚ),
      (exit_gap_callback u s x ts = ⟨s, [], none⟩ ↔
        acceptSample s.exit_gap_value x = false) ∧
      (acceptSample s.exit_gap_value x = true →
        exit_gap_callback u s x ts =
          update_bandwidth_calc u { s with exit_gap_value := some x } ts)) ∧
    (∀ (u : RixUtilities) (s : IocState) (x ts : ℚ),
      (g_h_callback u s x ts = ⟨s, [], none⟩ ↔
        acceptSample s.g_h_value x = false) ∧
      (acceptSample s.g_h_value x = true →
        g_h_callback u s x ts =
          update_grating_calc u { s with g_h_value := some x } ts)) :=
  ⟨acceptSample_none_eq, acceptSample_some_false_iff,
   fun u s x ts => ⟨g_pi_callback_noop_iff u s x ts, g_pi_callback_accept u s x ts⟩,
   fun u s x ts => ⟨m_pi_callback_noop_iff u s x ts, m_pi_callback_accept u s x ts⟩,
   fun u s x ts => ⟨exit_gap_callback_noop_iff u s x ts, exit_gap_callback_accept u s x ts⟩,
   fun u s x ts => ⟨g_h_callback_noop_iff u s x ts, g_h_callback_accept u s x ts⟩⟩

/-- Witness for C1: a sample of 10.03 against a stored value of 10 stays
inside the deadband, so the grating pitch callback is a no-op; a first
sample on the unset grating horizontal slot is accepted and runs the
grating recompute. -/
theorem C1_deadband_gate_witness :
    g_pi_callback uTest sTen (1003/100) 7 = ⟨sTen, [], none⟩ ∧
    g_h_callback uTest initState 3 2 =
      update_grating_calc uTest { initState with g_h_value := some 3 } 2 := by
  constructor
  · exact (C1_deadband_gate.2.2.1 uTest sTen (1003/100) 7).1.mpr
      (by simp [sTen, initState, acceptSample, npIsClose, DEADBAND]; norm_num [abs_le])
  · exact (C1_deadband_gate.2.2.2.2.2 uTest initState 3 2).2 rfl

/-- A state with only the grating horizontal slot set. -/
def sGH : IocState := { initState with g_h_value := some 4 }

/-- C2: while any required input slot is still unset, each recompute step
publishes its defined default (0 for energy, cff and bandwidth, the empty
string for the grating identity) and does not call into the calculation
module; once all required slots are set, the calculation module is
called. -/
theorem C2_default_before_ready :
    (∀ (u : RixUtilities) (s : IocState) (ts : ℚ),
      s.g_pi_value = none ∨ s.m_pi_value = none →
      update_energy_calc u s ts =
        ⟨{ s with energy := 0, energy_ts := some ts, cff := 0, cff_ts := some ts },
         [Event.writeEnergy 0 ts, Event.writeCff 0 ts], none⟩) ∧
    (∀ (u : RixUtilities) (s : IocState) (g m : ℚ),
      s.g_pi_value = some g → s.m_pi_value = some m →
      calculate_energy u s = (u.calc_E g m, [Event.callCalcE g m])) ∧
    (∀ (u : RixUtilities) (s : IocState) (ts : ℚ),
      s.g_pi_value = none ∨ s.m_pi_value = none ∨ s.exit_gap_value = none →
      update_bandwidth_calc u s ts =
        ⟨{ s with bandwidth := 0, bandwidth_ts := some ts },
         [Event.writeBandwidth 0 ts], none⟩) ∧
    (∀ (u : RixUtilities) (s : IocState) (g m eg : ℚ),
      s.g_pi_value = some g → s.m_pi_value = some m → s.exit_gap_value = some eg →
      calculate_bandwidth u s = (u.calc_BW eg g m, [Event.callCalcBW eg g m])) ∧
    (∀ (u : RixUtilities) (s : IocState) (ts : ℚ),
      s.g_h_value = none →
      update_grating_calc u s ts =
        ⟨{ s with grating := (""), grating_ts := some ts },
         [Event.writeGrating ("") ts], none⟩) ∧
    (∀ (u : RixUtilities) (s : IocState) (x : ℚ),
      s.g_h_value = some x →
      calculate_grating u s = (u.get_grating (), [Event.callGetGrating])) :=
  ⟨fun u s ts h => update_energy_calc_missing u s ts h,
   fun u s g m hg hm => calculate_energy_some u s g m hg hm,
   fun u s ts h => update_bandwidth_calc_missing u s ts h,
   fun u s g m eg hg hm he => calculate_bandwidth_some u s g m eg hg hm he,
   fun u s ts h => update_grating_calc_missing u s ts h,
   fun u s x h => calculate_grating_some u s x h⟩

/-- Witness for C2: from the all-unset state the energy step publishes the
defaults without calling out; with all three bandwidth dependencies set the
bandwidth calculation is called with them; with the grating horizontal
slot set the zero-argument grating calculation is called. -/
theorem C2_default_before_ready_witness :
    update_energy_calc uTest initState 4 =
      ⟨{ initState with energy := 0, energy_ts := some 4, cff := 0, cff_ts := some 4 },
       [Event.writeEnergy 0 4, Event.writeCff 0 4], none⟩ ∧
    calculate_bandwidth uTest sReady = (uTest.calc_BW 3 1 2, [Event.callCalcBW 3 1 2]) ∧
    calculate_grating uTest sGH = (uTest.get_grating (), [Event.callGetGrating]) :=
  ⟨C2_default_before_ready.1 uTest initState 4 (Or.inl rfl),
   C2_default_before_ready.2.2.2.1 uTest sReady 1 2 3 rfl rfl rfl,
   C2_default_before_ready.2.2.2.2.2 uTest sGH 4 rfl⟩

/-! ### Frame properties of the recompute steps -/

/-- Effects that belong to the bandwidth recompute step. -/
def isBandwidthEvent : Event → Bool
  | Event.callCalcBW _ _ _ => true
  | Event.writeBandwidth _ _ => true
  | _ => false

/-- Effects that belong to the grating recompute step. -/
def isGratingEvent : Event → Bool
  | Event.callGetGrating => true
  | Event.writeGrating _ _ => true
  | _ => false

lemma update_bandwidth_calc_frame (u : RixUtilities) (s : IocState) (ts : ℚ) :
    (update_bandwidth_calc u s ts).state.energy = s.energy ∧
    (update_bandwidth_calc u s ts).state.energy_ts = s.energy_ts ∧
    (update_bandwidth_calc u s ts).state.cff = s.cff ∧
    (update_bandwidth_calc u s ts).state.cff_ts = s.cff_ts ∧
    (update_bandwidth_calc u s ts).state.grating = s.grating ∧
    (update_bandwidth_calc u s ts).state.grating_ts = s.grating_ts ∧
    (update_bandwidth_calc u s ts).events.all isBandwidthEvent = true := by
  cases hg : s.g_pi_value with
  | none =>
    rw [update_bandwidth_calc_missing u s ts (Or.inl hg)]
    simp [isBandwidthEvent]
  | some g =>
    cases hm : s.m_pi_value with
    | none =>
      rw [update_bandwidth_calc_missing u s ts (Or.inr (Or.inl hm))]
      simp [isBandwidthEvent]
    | some m =>
      cases he : s.exit_gap_value with
      | none =>
        rw [update_bandwidth_calc_missing u s ts (Or.inr (Or.inr he))]
        simp [isBandwidthEvent]
      | some eg =>
        cases hc : u.calc_BW eg g m with
        | error er =>
          rw [update_bandwidth_calc_raise u s ts g m eg er hg hm he hc]
          simp [isBandwidthEvent]
        | ok b =>
          rw [update_bandwidth_calc_ok u s ts g m eg b hg hm he hc]
          simp [isBandwidthEvent]

lemma update_grating_calc_frame (u : RixUtilities) (s : IocState) (ts : ℚ) :
    (update_grating_calc u s ts).state.energy = s.energy ∧
    (update_grating_calc u s ts).state.energy_ts = s.energy_ts ∧
    (update_grating_calc u s ts).state.cff = s.cff ∧
    (update_grating_calc u s ts).state.cff_ts = s.cff_ts ∧
    (update_grating_calc u s ts).state.bandwidth = s.bandwidth ∧
    (update_grating_calc u s ts).state.bandwidth_ts = s.bandwidth_ts ∧
    (update_grating_calc u s ts).events.all isGratingEvent = true := by
  cases hx : s.g_h_value with
  | none =>
    rw [update_grating_calc_missing u s ts hx]
    simp [isGratingEvent]
  | some x =>
    cases hc : u.get_grating () with
    | error er =>
      rw [update_grating_calc_raise u s ts x er hx hc]
      simp [isGratingEvent]
    | ok gname =>
      rw [update_grating_calc_ok u s ts x gname hx hc]
      simp [isGratingEvent]

/-- C3: processing an exit gap sample never changes the energy, cff or
grating outputs and emits only bandwidth recompute effects; processing a
grating horizontal sample never changes the energy, cff or bandwidth
outputs and emits only grating recompute effects. -/
theorem C3_cross_dependency_isolation :
    ∀ (u : RixUtilities) (s : IocState) (x ts : ℚ),
      ((exit_gap_callback u s x ts).state.energy = s.energy ∧
       (exit_gap_callback u s x ts).state.energy_ts = s.energy_ts ∧
       (exit_gap_callback u s x ts).state.cff = s.cff ∧
       (exit_gap_callback u s x ts).state.cff_ts = s.cff_ts ∧
       (exit_gap_callback u s x ts).state.grating = s.grating ∧
       (exit_gap_callback u s x ts).state.grating_ts = s.grating_ts ∧
       (exit_gap_callback u s x ts).events.all isBandwidthEvent = true) ∧
      ((g_h_callback u s x ts).state.energy = s.energy ∧
       (g_h_callback u s x ts).state.energy_ts = s.energy_ts ∧
       (g_h_callback u s x ts).state.cff = s.cff ∧
       (g_h_callback u s x ts).state.cff_ts = s.cff_ts ∧
       (g_h_callback u s x ts).state.bandwidth = s.bandwidth ∧
       (g_h_callback u s x ts).state.bandwidth_ts = s.bandwidth_ts ∧
       (g_h_callback u s x ts).events.all isGratingEvent = true) := by
  intro u s x ts
  constructor
  · cases h : acceptSample s.exit_gap_value x with
    | false =>
      rw [exit_gap_callback_reject u s x ts h]
      exact ⟨rfl, rfl, rfl, rfl, rfl, rfl, rfl⟩
    | true =>
      rw [exit_gap_callback_accept u s x ts h]
      exact update_bandwidth_calc_frame u { s with exit_gap_value := some x } ts
  · cases h : acceptSample s.g_h_value x with
    | false =>
      rw [g_h_callback_reject u s x ts h]
      exact ⟨rfl, rfl, rfl, rfl, rfl, rfl, rfl⟩
    | true =>
      rw [g_h_callback_accept u s x ts h]
      exact update_grating_calc_frame u { s with g_h_value := some x } ts

lemma andThen_none (s : IocState) (evs : List Event) (k : IocState → HResult) :
    andThen ⟨s, evs, none⟩ k = ⟨(k s).state, evs ++ (k s).events, (k s).err⟩ := rfl

lemma andThen_some (s : IocState) (evs : List Event) (e : String)
    (k : IocState → HResult) :
    andThen ⟨s, evs, some e⟩ k = ⟨s, evs, some e⟩ := rfl

/-- C4: from the all-unset state, a grating pitch sample of 10.0 leaves the
energy, cff and bandwidth outputs at their defaults (the mirror pitch is
still unset, so only default writes happen); a subsequent mirror pitch
sample of 5.0 triggers the energy step, which calls the calculation with
(10.0, 5.0), and the results are published with the mirror pitch sample
timestamp. -/
theorem C4_scenario :
    ∀ (u : RixUtilities) (t1 t2 e c : ℚ), u.calc_E 10 5 = Except.ok (e, c) →
    g_pi_callback u initState 10 t1 =
      ⟨{ initState with g_pi_value := some 10, energy_ts := some t1,
                        cff_ts := some t1, bandwidth_ts := some t1 },
       [Event.writeEnergy 0 t1, Event.writeCff 0 t1, Event.writeBandwidth 0 t1],
       none⟩ ∧
    m_pi_callback u { initState with g_pi_value := some 10, energy_ts := some t1,
                                     cff_ts := some t1, bandwidth_ts := some t1 } 5 t2 =
      ⟨{ initState with g_pi_value := some 10, m_pi_value := some 5,
                        energy := e, energy_ts := some t2, cff := c, cff_ts := some t2,
                        bandwidth_ts := some t2 },
       [Event.callCalcE 10 5, Event.writeEnergy e t2, Event.writeCff c t2,
        Event.writeBandwidth 0 t2],
       none⟩ := by
  intro u t1 t2 e c h
  constructor
  · rfl
  · rw [m_pi_callback_accept u
      { initState with g_pi_value := some 10, energy_ts := some t1,
                       cff_ts := some t1, bandwidth_ts := some t1 } 5 t2 rfl]
    rw [update_energy_calc_ok u
      { initState with g_pi_value := some 10, m_pi_value := some 5,
                       energy_ts := some t1, cff_ts := some t1,
                       bandwidth_ts := some t1 }
      t2 10 5 e c rfl rfl h]
    rfl

/-- Witness for C4: the scenario with the identity-like sample module and
timestamps 0 and 1. -/
theorem C4_scenario_witness :
    g_pi_callback uTest initState 10 0 =
      ⟨{ initState with g_pi_value := some 10, energy_ts := some 0,
                        cff_ts := some 0, bandwidth_ts := some 0 },
       [Event.writeEnergy 0 0, Event.writeCff 0 0, Event.writeBandwidth 0 0],
       none⟩ ∧
    m_pi_callback uTest { initState with g_pi_value := some 10, energy_ts := some 0,
                                         cff_ts := some 0, bandwidth_ts := some 0 } 5 1 =
      ⟨{ initState with g_pi_value := some 10, m_pi_value := some 5,
                        energy := 10, energy_ts := some 1, cff := 5, cff_ts := some 1,
                        bandwidth_ts := some 1 },
       [Event.callCalcE 10 5, Event.writeEnergy 10 1, Event.writeCff 5 1,
        Event.writeBandwidth 0 1],
       none⟩ :=
  C4_scenario uTest 0 1 10 5 rfl

/-- C5: whenever the energy recompute step runs with both pitch slots set,
it makes exactly one call to the energy-and-cff calculation with
(grating pitch, mirror pitch) and, when that call returns, publishes both
returned values with the propagated timestamp. -/
theorem C5_energy_step :
    ∀ (u : RixUtilities) (s : IocState) (ts g m e c : ℚ),
      s.g_pi_value = some g → s.m_pi_value = some m →
      u.calc_E g m = Except.ok (e, c) →
      update_energy_calc u s ts =
        ⟨{ s with energy := e, energy_ts := some ts, cff := c, cff_ts := some ts },
         [Event.callCalcE g m, Event.writeEnergy e ts, Event.writeCff c ts],
         none⟩ :=
  fun u s ts g m e c hg hm hc => update_energy_calc_ok u s ts g m e c hg hm hc

/-- Witness for C5: the energy step on a state with both pitches set makes
the single calculation call and the two writes. -/
theorem C5_energy_step_witness :
    update_energy_calc uTest sReady 9 =
      ⟨{ sReady with energy := 1, energy_ts := some 9, cff := 2, cff_ts := some 9 },
       [Event.callCalcE 1 2, Event.writeEnergy 1 9, Event.writeCff 2 9],
       none⟩ :=
  C5_energy_step uTest sReady 9 1 2 1 2 rfl rfl rfl

/-- C6: whenever the bandwidth recompute step runs with the exit gap and
both pitch slots set, it calls the bandwidth calculation with the
arguments in the order (exit gap, grating pitch, mirror pitch) and, when
that call returns, publishes the result with the propagated timestamp. -/
theorem C6_bandwidth_step :
    ∀ (u : RixUtilities) (s : IocState) (ts g m eg b : ℚ),
      s.g_pi_value = some g → s.m_pi_value = some m →
      s.exit_gap_value = some eg →
      u.calc_BW eg g m = Except.ok b →
      update_bandwidth_calc u s ts =
        ⟨{ s with bandwidth := b, bandwidth_ts := some ts },
         [Event.callCalcBW eg g m, Event.writeBandwidth b ts],
         none⟩ :=
  fun u s ts g m eg b hg hm he hc =>
    update_bandwidth_calc_ok u s ts g m eg b hg hm he hc

/-- Witness for C6: the bandwidth step on a state with exit gap 3, grating
pitch 1 and mirror pitch 2 calls the calculation as (3, 1, 2). -/
theorem C6_bandwidth_step_witness :
    update_bandwidth_calc uTest sReady 9 =
      ⟨{ sReady with bandwidth := 3, bandwidth_ts := some 9 },
       [Event.callCalcBW 3 1 2, Event.writeBandwidth 3 9],
       none⟩ :=
  C6_bandwidth_step uTest sReady 9 1 2 3 3 rfl rfl rfl rfl

/-- Counterexample to C7: with all three bandwidth dependencies set and a
bandwidth calculation that raises, an accepted grating pitch sample leaves
the state partially updated: the handler terminates with the raise, yet
the slot now holds the new sample and energy and cff were already
published, while the bandwidth recompute never wrote. -/
theorem C7_counterexample :
    (g_pi_callback uRaises sReady 10 5).err = some ("boom") ∧
    (g_pi_callback uRaises sReady 10 5).state ≠ sReady ∧
    (g_pi_callback uRaises sReady 10 5).state.energy_ts = some 5 ∧
    (g_pi_callback uRaises sReady 10 5).state.bandwidth_ts = none := by
  have hacc : acceptSample sReady.g_pi_value 10 = true := by
    simp [sReady, initState, acceptSample, npIsClose, DEADBAND]
    norm_num [abs_le]
  rw [g_pi_callback_accept uRaises sReady 10 5 hacc]
  rw [update_energy_calc_ok uRaises { sReady with g_pi_value := some 10 }
      5 10 2 10 2 rfl rfl rfl]
  rw [andThen_none]
  rw [update_bandwidth_calc_raise uRaises
      { sReady with g_pi_value := some 10, energy := 10, energy_ts := some 5,
                    cff := 2, cff_ts := some 5 } 5 10 2 3 ("boom") rfl rfl rfl rfl]
  refine ⟨rfl, ?_, rfl, rfl⟩
  intro hs
  have hts := congrArg IocState.energy_ts hs
  simp [sReady, initState] at hts

/-- C7 (amended): a raise from the calculation module propagates and
terminates that single handler invocation: recompute steps later in the
same handler do not run and nothing further is published.  Updates are,
however, not atomic per handler: the input slot is stored before the
recompute steps run, and publishes made by earlier steps of the handler
persist, so on an error the state can be left partially updated.  Shown
here for the grating pitch handler: if the energy calculation raises, the
slot holds the new sample, nothing was published, and the bandwidth step
never ran; if the energy calculation returns and the bandwidth
calculation raises, the slot, energy and cff are updated while the
bandwidth output is untouched. -/
theorem C7_raise_propagation :
    (∀ (u : RixUtilities) (s : IocState) (x ts m : ℚ) (er : String),
      acceptSample s.g_pi_value x = true →
      s.m_pi_value = some m →
      u.calc_E x m = Except.error er →
      g_pi_callback u s x ts =
        ⟨{ s with g_pi_value := some x }, [Event.callCalcE x m], some er⟩) ∧
    (∀ (u : RixUtilities) (s : IocState) (x ts m eg e c : ℚ) (er : String),
      acceptSample s.g_pi_value x = true →
      s.m_pi_value = some m →
      s.exit_gap_value = some eg →
      u.calc_E x m = Except.ok (e, c) →
      u.calc_BW eg x m = Except.error er →
      g_pi_callback u s x ts =
        ⟨{ s with g_pi_value := some x, energy := e, energy_ts := some ts,
                  cff := c, cff_ts := some ts },
         [Event.callCalcE x m, Event.writeEnergy e ts, Event.writeCff c ts,
          Event.callCalcBW eg x m],
         some er⟩) := by
  constructor
  · intro u s x ts m er hacc hm hc
    rw [g_pi_callback_accept u s x ts hacc]
    rw [update_energy_calc_raise u { s with g_pi_value := some x } ts x m er rfl hm hc]
    rw [andThen_some]
  · intro u s x ts m eg e c er hacc hm he hcE hcBW
    rw [g_pi_callback_accept u s x ts hacc]
    rw [update_energy_calc_ok u { s with g_pi_value := some x } ts x m e c rfl hm hcE]
    rw [andThen_none]
    rw [update_bandwidth_calc_raise u
        { s with g_pi_value := some x, energy := e, energy_ts := some ts,
                 cff := c, cff_ts := some ts } ts x m eg er rfl hm he hcBW]
    rfl

/-- Witness for the amended C7: the concrete partially updated run of the
counterexample, obtained through the theorem. -/
theorem C7_raise_propagation_witness :
    g_pi_callback uRaises sReady 10 5 =
      ⟨{ sReady with g_pi_value := some 10, energy := 10, energy_ts := some 5,
                     cff := 2, cff_ts := some 5 },
       [Event.callCalcE 10 2, Event.writeEnergy 10 5, Event.writeCff 2 5,
        Event.callCalcBW 3 10 2],
       some ("boom")⟩ :=
  C7_raise_propagation.2 uRaises sReady 10 5 2 3 10 2 ("boom")
    (by simp [sReady, initState, acceptSample, npIsClose, DEADBAND]
        norm_num [abs_le])
    rfl rfl rfl rfl

/-- C8: every attribute access on the stub object substituted for the
unavailable rix.db namespace returns None instead of raising. -/
theorem C8_rixdb_stub_getattr :
    ∀ name : String, NoneRixDB_getattr name = AttrResult.value PyValue.pyNone :=
  fun _ => rfl

/-- C9: the published grating identity does not depend on the numeric
value of the grating horizontal sample: once the slot is set, the
zero-argument grating calculation is called (the sample value is never
passed to it), and any two states whose slots hold possibly different set
values yield the same result. -/
theorem C9_grating_value_independence :
    ∀ (u : RixUtilities) (s1 s2 : IocState) (a b : ℚ),
      s1.g_h_value = some a → s2.g_h_value = some b →
      calculate_grating u s1 = (u.get_grating (), [Event.callGetGrating]) ∧
      calculate_grating u s1 = calculate_grating u s2 := by
  intro u s1 s2 a b h1 h2
  rw [calculate_grating_some u s1 a h1, calculate_grating_some u s2 b h2]
  exact ⟨rfl, rfl⟩

/-- Witness for C9: slots holding 4 and 7 give the same grating result. -/
theorem C9_grating_value_independence_witness :
    calculate_grating uTest sGH = (uTest.get_grating (), [Event.callGetGrating]) ∧
    calculate_grating uTest sGH =
      calculate_grating uTest { initState with g_h_value := some 7 } :=
  C9_grating_value_independence uTest sGH
    { initState with g_h_value := some 7 } 4 7 rfl rfl

/-! ### Pairing of the energy and cff writes -/

/-- Timestamps of the energy writes in a trace, in order. -/
def energyWriteTimes (evs : List Event) : List ℚ :=
  evs.filterMap fun ev =>
    match ev with
    | Event.writeEnergy _ ts => some ts
    | _ => none

/-- Timestamps of the cff writes in a trace, in order. -/
def cffWriteTimes (evs : List Event) : List ℚ :=
  evs.filterMap fun ev =>
    match ev with
    | Event.writeCff _ ts => some ts
    | _ => none

lemma energyWriteTimes_append (a b : List Event) :
    energyWriteTimes (a ++ b) = energyWriteTimes a ++ energyWriteTimes b := by
  simp [energyWriteTimes]

lemma cffWriteTimes_append (a b : List Event) :
    cffWriteTimes (a ++ b) = cffWriteTimes a ++ cffWriteTimes b := by
  simp [cffWriteTimes]

lemma update_energy_calc_paired (u : RixUtilities) (s : IocState) (ts : ℚ) :
    energyWriteTimes (update_energy_calc u s ts).events =
      cffWriteTimes (update_energy_calc u s ts).events := by
  cases hg : s.g_pi_value with
  | none =>
    rw [update_energy_calc_missing u s ts (Or.inl hg)]
    simp [energyWriteTimes, cffWriteTimes]
  | some g =>
    cases hm : s.m_pi_value with
    | none =>
      rw [update_energy_calc_missing u s ts (Or.inr hm)]
      simp [energyWriteTimes, cffWriteTimes]
    | some m =>
      cases hc : u.calc_E g m with
      | error er =>
        rw [update_energy_calc_raise u s ts g m er hg hm hc]
        simp [energyWriteTimes, cffWriteTimes]
      | ok p =>
        cases p with
        | mk e c =>
          rw [update_energy_calc_ok u s ts g m e c hg hm hc]
          simp [energyWriteTimes, cffWriteTimes]

lemma update_bandwidth_calc_no_ec (u : RixUtilities) (s : IocState) (ts : ℚ) :
    energyWriteTimes (update_bandwidth_calc u s ts).events = [] ∧
    cffWriteTimes (update_bandwidth_calc u s ts).events = [] := by
  cases hg : s.g_pi_value with
  | none =>
    rw [update_bandwidth_calc_missing u s ts (Or.inl hg)]
    simp [energyWriteTimes, cffWriteTimes]
  | some g =>
    cases hm : s.m_pi_value with
    | none =>
      rw [update_bandwidth_calc_missing u s ts (Or.inr (Or.inl hm))]
      simp [energyWriteTimes, cffWriteTimes]
    | some m =>
      cases he : s.exit_gap_value with
      | none =>
        rw [update_bandwidth_calc_missing u s ts (Or.inr (Or.inr he))]
        simp [energyWriteTimes, cffWriteTimes]
      | some eg =>
        cases hc : u.calc_BW eg g m with
        | error er =>
          rw [update_bandwidth_calc_raise u s ts g m eg er hg hm he hc]
          simp [energyWriteTimes, cffWriteTimes]
        | ok b =>
          rw [update_bandwidth_calc_ok u s ts g m eg b hg hm he hc]
          simp [energyWriteTimes, cffWriteTimes]

lemma update_grating_calc_no_ec (u : RixUtilities) (s : IocState) (ts : ℚ) :
    energyWriteTimes (update_grating_calc u s ts).events = [] ∧
    cffWriteTimes (update_grating_calc u s ts).events = [] := by
  cases hx : s.g_h_value with
  | none =>
    rw [update_grating_calc_missing u s ts hx]
    simp [energyWriteTimes, cffWriteTimes]
  | some x =>
    cases hc : u.get_grating () with
    | error er =>
      rw [update_grating_calc_raise u s ts x er hx hc]
      simp [energyWriteTimes, cffWriteTimes]
    | ok gname =>
      rw [update_grating_calc_ok u s ts x gname hx hc]
      simp [energyWriteTimes, cffWriteTimes]

lemma andThen_events_cases (r : HResult) (k : IocState → HResult) :
    (andThen r k).events = r.events ∨
    (andThen r k).events = r.events ++ (k r.state).events := by
  unfold andThen
  cases hr : r.err with
  | some e => exact Or.inl rfl
  | none => exact Or.inr rfl

lemma paired_of_andThen (r : HResult) (k : IocState → HResult)
    (h1 : energyWriteTimes r.events = cffWriteTimes r.events)
    (h2 : energyWriteTimes (k r.state).events = [])
    (h3 : cffWriteTimes (k r.state).events = []) :
    energyWriteTimes (andThen r k).events = cffWriteTimes (andThen r k).events := by
  rcases andThen_events_cases r k with h | h <;> rw [h]
  · exact h1
  · rw [energyWriteTimes_append, cffWriteTimes_append, h1, h2, h3]

/-- C10: in every handler invocation the energy and cff outputs are
written as a pair: the list of timestamps at which energy is written
always equals the list of timestamps at which cff is written, so one is
never published without the other and both always carry the same
timestamp. -/
theorem C10_energy_cff_pairing :
    ∀ (u : RixUtilities) (s : IocState) (x ts : ℚ),
      energyWriteTimes (g_pi_callback u s x ts).events =
        cffWriteTimes (g_pi_callback u s x ts).events ∧
      energyWriteTimes (m_pi_callback u s x ts).events =
        cffWriteTimes (m_pi_callback u s x ts).events ∧
      energyWriteTimes (exit_gap_callback u s x ts).events =
        cffWriteTimes (exit_gap_callback u s x ts).events ∧
      energyWriteTimes (g_h_callback u s x ts).events =
        cffWriteTimes (g_h_callback u s x ts).events := by
  intro u s x ts
  refine ⟨?_, ?_, ?_, ?_⟩
  · cases h : acceptSample s.g_pi_value x with
    | false => rw [g_pi_callback_reject u s x ts h]; rfl
    | true =>
      rw [g_pi_callback_accept u s x ts h]
      exact paired_of_andThen _ _
        (update_energy_calc_paired u { s with g_pi_value := some x } ts)
        (update_bandwidth_calc_no_ec u _ ts).1
        (update_bandwidth_calc_no_ec u _ ts).2
  · cases h : acceptSample s.m_pi_value x with
    | false => rw [m_pi_callback_reject u s x ts h]; rfl
    | true =>
      rw [m_pi_callback_accept u s x ts h]
      exact paired_of_andThen _ _
        (update_energy_calc_paired u { s with m_pi_value := some x } ts)
        (update_bandwidth_calc_no_ec u _ ts).1
        (update_bandwidth_calc_no_ec u _ ts).2
  · cases h : acceptSample s.exit_gap_value x with
    | false => rw [exit_gap_callback_reject u s x ts h]; rfl
    | true =>
      rw [exit_gap_callback_accept u s x ts h]
      rw [(update_bandwidth_calc_no_ec u { s with exit_gap_value := some x } ts).1]
      rw [(update_bandwidth_calc_no_ec u { s with exit_gap_value := some x } ts).2]
  · cases h : acceptSample s.g_h_value x with
    | false => rw [g_h_callback_reject u s x ts h]; rfl
    | true =>
      rw [g_h_callback_accept u s x ts h]
      rw [(update_grating_calc_no_ec u { s with g_h_value := some x } ts).1]
      rw [(update_grating_calc_no_ec u { s with g_h_value := some x } ts).2]
